import Mathlib

/-!
Shallow embedding of `src/db_layer.py` (records-management persistence layer
with two interchangeable backends: an embedded SQLite store and a Firestore
document store).

Modelling conventions:
* Python scalar/JSON values are `JVal`; a Python `dict` is an association
  list `Dict` with unique keys, insertion-ordered, `get`/`[...]=` given by
  `dictGet`/`dictSet` (overwriting a key in place keeps its position, as in
  CPython).
* Wall-clock timestamps produced by `_now_str()` are modelled as `Nat`
  ticks threaded explicitly (`now` parameters); `datetime(x)` ordering on
  the stored `"%Y-%m-%d %H:%M:%S"` strings coincides with the `Nat` order.
* `json.dumps`/`json.loads` round-trip is modelled as the identity on
  `Dict` (the payloads stored are JSON-serializable dicts).
* sqlite3 semantics modelled: AUTOINCREMENT high-water-mark id assignment
  (`sqlite_sequence`), NOT NULL and UNIQUE(cpf) constraint enforcement with
  statement rollback on violation, `fetchone`/`fetchall` in rowid order,
  `ORDER BY` as a sort.
* Firestore semantics modelled: documents are (key, data) pairs; queries
  `.where(f, "==", v).limit(1).stream()` iterate in document-key order;
  `document.update(d)` merges `d` into the stored data.  Two faults of the
  source are modelled as they actually occur: `_next_id` runs
  `db.transaction()(fn)`, but a `Transaction` object is not callable, so
  every call raises TypeError before any read or write; and the module
  global `firestore` is never bound (it is imported only inside other
  functions), so `list_professores` and `list_rascunhos`, whose bodies
  evaluate `firestore.Query.DESCENDING`, raise NameError on every call.
-/

namespace DbLayer

/-- Python scalar / JSON values as stored by the layer. -/
inductive JVal where
  | null
  | bool (b : Bool)
  | num (n : Int)
  | str (s : String)
deriving DecidableEq, Repr

/-- A Python dict: insertion-ordered association list with unique keys. -/
abbrev Dict := List (String × JVal)

/-- `d.get(k)` without default: `none` when the key is absent. -/
def dictGet (d : Dict) (k : String) : Option JVal :=
  match d with
  | [] => none
  | (k', v) :: rest => if k' = k then some v else dictGet rest k

/-- `d.get(k)` — absent keys give Python `None`, i.e. `JVal.null`. -/
def pyGet (d : Dict) (k : String) : JVal :=
  (dictGet d k).getD .null

/-- `d.get(k, dflt)`. -/
def pyGetD (d : Dict) (k : String) (dflt : JVal) : JVal :=
  (dictGet d k).getD dflt

/-- `d[k] = v`: overwrite in place (keeping the key's position) or append. -/
def dictSet (d : Dict) (k : String) (v : JVal) : Dict :=
  match d with
  | [] => [(k, v)]
  | (k', v') :: rest => if k' = k then (k, v) :: rest else (k', v') :: dictSet rest k v

/-- Firestore `document.update(upd)` merge: each key of `upd` is set in `d`. -/
def dictMerge (d upd : Dict) : Dict :=
  upd.foldl (fun acc kv => dictSet acc kv.1 kv.2) d

/-- Python `int(v)` on the values that can appear here: ints pass through,
booleans become 0/1, decimal strings are parsed, everything else raises
(`none`). -/
def jToInt : JVal → Option Int
  | .num n => some n
  | .bool b => some (if b then 1 else 0)
  | .str s => s.toInt?
  | .null => none

/-- `int(data.get(k, 0))`. -/
def pyIntD (d : Dict) (k : String) : Option Int :=
  match dictGet d k with
  | none => some 0
  | some v => jToInt v

/-- Numeric view of a dict field (used only to state ordering properties). -/
def dictNum (d : Dict) (k : String) : Int :=
  match dictGet d k with
  | some (.num n) => n
  | _ => 0

/-- Failures surfaced by the modelled operations.
`integrityUnique` is sqlite's `IntegrityError: UNIQUE constraint failed`
(the spec's `ConflictError`); `integrityNotNull` is
`IntegrityError: NOT NULL constraint failed`; `typeError` is Python's
TypeError (an `int()` conversion failure, or calling the non-callable
`Transaction` object in `_next_id`); `nameError` is Python's NameError
(a function body referencing the unbound module global `firestore`). -/
inductive DbError where
  | integrityUnique
  | integrityNotNull
  | typeError
  | nameError
deriving DecidableEq, Repr

/-! ## SQLite backend (`USE_FIREBASE=0` branch of `db_layer.py`) -/

namespace SQ

/-- One row of the `professores` table (schema of `init_db`). All data
columns carry the bound Python value (sqlite is dynamically typed); `id` is
the AUTOINCREMENT primary key and `criado_em` the insertion timestamp. -/
structure Prof where
  id : Nat
  nome : JVal
  cpf : JVal
  rg : JVal
  matricula : JVal
  escola : JVal
  cargo : JVal
  situacao_servidor : JVal
  data_admissao : JVal
  telefone : JVal
  email : JVal
  endereco : JVal
  banco : JVal
  agencia : JVal
  conta : JVal
  tipo_conta : JVal
  data_inicio_fundef : JVal
  data_fim_fundef : JVal
  carga_horaria : JVal
  quantidade_meses_trabalhados : JVal
  aceitou_declaracao : JVal
  criado_em : Nat
deriving DecidableEq, Repr

/-- One row of the `rascunhos_professores` table. -/
structure Rasc where
  id : Nat
  nome_referencia : JVal
  cpf : JVal
  dados_json : Dict
  criado_em : Nat
  atualizado_em : Nat
deriving DecidableEq, Repr

/-- Database state: the two tables (rows in rowid order) and the
`sqlite_sequence` high-water marks backing AUTOINCREMENT. -/
structure St where
  professores : List Prof
  rascunhos : List Rasc
  seq_professores : Nat
  seq_rascunhos : Nat
deriving DecidableEq, Repr

/-- State after `init_db()` on a fresh database file. -/
def initState : St := ⟨[], [], 0, 0⟩

/-- `dict(r)` for a `SELECT *` row, in schema column order. -/
def Prof.toDict (p : Prof) : Dict :=
  [("id", .num p.id), ("nome", p.nome), ("cpf", p.cpf), ("rg", p.rg),
   ("matricula", p.matricula), ("escola", p.escola), ("cargo", p.cargo),
   ("situacao_servidor", p.situacao_servidor),
   ("data_admissao", p.data_admissao), ("telefone", p.telefone),
   ("email", p.email), ("endereco", p.endereco), ("banco", p.banco),
   ("agencia", p.agencia), ("conta", p.conta), ("tipo_conta", p.tipo_conta),
   ("data_inicio_fundef", p.data_inicio_fundef),
   ("data_fim_fundef", p.data_fim_fundef),
   ("carga_horaria", p.carga_horaria),
   ("quantidade_meses_trabalhados", p.quantidade_meses_trabalhados),
   ("aceitou_declaracao", p.aceitou_declaracao),
   ("criado_em", .num p.criado_em)]

/-- `dict(r)` for a row of the explicit column list in `export_professores`
(note: `aceitou_declaracao` is not selected there). -/
def Prof.exportDict (p : Prof) : Dict :=
  [("id", .num p.id), ("nome", p.nome), ("cpf", p.cpf), ("rg", p.rg),
   ("matricula", p.matricula), ("escola", p.escola), ("cargo", p.cargo),
   ("situacao_servidor", p.situacao_servidor),
   ("data_admissao", p.data_admissao), ("telefone", p.telefone),
   ("email", p.email), ("endereco", p.endereco), ("banco", p.banco),
   ("agencia", p.agencia), ("conta", p.conta), ("tipo_conta", p.tipo_conta),
   ("data_inicio_fundef", p.data_inicio_fundef),
   ("data_fim_fundef", p.data_fim_fundef),
   ("carga_horaria", p.carga_horaria),
   ("quantidade_meses_trabalhados", p.quantidade_meses_trabalhados),
   ("criado_em", .num p.criado_em)]

/-- `dict(r)` for the summary row selected by `list_rascunhos`. -/
def Rasc.summaryDict (r : Rasc) : Dict :=
  [("id", .num r.id), ("nome_referencia", r.nome_referencia),
   ("cpf", r.cpf), ("atualizado_em", .num r.atualizado_em),
   ("criado_em", .num r.criado_em)]

/-- The 17 TEXT-column values bound by `insert_professor`, in statement
order (the three INTEGER columns go through `int(...)` separately). -/
def insertTextVals (data : Dict) : List JVal :=
  [pyGet data "nome", pyGet data "cpf", pyGet data "rg",
   pyGet data "matricula", pyGet data "escola", pyGet data "cargo",
   pyGet data "situacao_servidor", pyGet data "data_admissao",
   pyGet data "telefone", pyGet data "email", pyGet data "endereco",
   pyGet data "banco", pyGet data "agencia", pyGet data "conta",
   pyGet data "tipo_conta", pyGet data "data_inicio_fundef",
   pyGet data "data_fim_fundef"]

/-- The row inserted by `insert_professor` once the binds succeed. -/
def profFromData (nid : Nat) (data : Dict) (ch qm ad : Int) (now : Nat) : Prof :=
  { id := nid, nome := pyGet data "nome", cpf := pyGet data "cpf",
    rg := pyGet data "rg", matricula := pyGet data "matricula",
    escola := pyGet data "escola", cargo := pyGet data "cargo",
    situacao_servidor := pyGet data "situacao_servidor",
    data_admissao := pyGet data "data_admissao",
    telefone := pyGet data "telefone", email := pyGet data "email",
    endereco := pyGet data "endereco", banco := pyGet data "banco",
    agencia := pyGet data "agencia", conta := pyGet data "conta",
    tipo_conta := pyGet data "tipo_conta",
    data_inicio_fundef := pyGet data "data_inicio_fundef",
    data_fim_fundef := pyGet data "data_fim_fundef",
    carga_horaria := .num ch, quantidade_meses_trabalhados := .num qm,
    aceitou_declaracao := .num ad, criado_em := now }

/-- `insert_professor(data)`: binds the 17 TEXT columns via `data.get(c)`
and the 3 INTEGER columns via `int(data.get(c, 0))`, stamps `criado_em`,
and inserts; sqlite enforces NOT NULL on every column and UNIQUE on `cpf`,
and AUTOINCREMENT assigns `sqlite_sequence + 1`; returns
`cursor.lastrowid`. -/
def insert_professor (data : Dict) (now : Nat) (s : St) :
    Except DbError (Nat × St) :=
  match pyIntD data "carga_horaria", pyIntD data "quantidade_meses_trabalhados",
        pyIntD data "aceitou_declaracao" with
  | some ch, some qm, some ad =>
    if (insertTextVals data).any (· == JVal.null) then
      .error .integrityNotNull
    else if s.professores.any (fun p => p.cpf == pyGet data "cpf") then
      .error .integrityUnique
    else
      let nid := s.seq_professores + 1
      .ok (nid, { s with
        professores := s.professores ++ [profFromData nid data ch qm ad now],
        seq_professores := nid })
  | _, _, _ => .error .typeError

/-- The 20 values bound by `update_professor` (`data.get(c)` for each of the
20 updatable columns, raw — no `int(...)` conversion on the UPDATE path). -/
def updateVals (data : Dict) : List JVal :=
  [pyGet data "nome", pyGet data "cpf", pyGet data "rg",
   pyGet data "matricula", pyGet data "escola", pyGet data "cargo",
   pyGet data "situacao_servidor", pyGet data "data_admissao",
   pyGet data "telefone", pyGet data "email", pyGet data "endereco",
   pyGet data "banco", pyGet data "agencia", pyGet data "conta",
   pyGet data "tipo_conta", pyGet data "data_inicio_fundef",
   pyGet data "data_fim_fundef", pyGet data "carga_horaria",
   pyGet data "quantidade_meses_trabalhados", pyGet data "aceitou_declaracao"]

/-- The row produced by `update_professor`'s SET list on a matched row:
all 20 updatable columns overwritten, `id` and `criado_em` untouched. -/
def applyUpdate (data : Dict) (p : Prof) : Prof :=
  { id := p.id, nome := pyGet data "nome", cpf := pyGet data "cpf",
    rg := pyGet data "rg", matricula := pyGet data "matricula",
    escola := pyGet data "escola", cargo := pyGet data "cargo",
    situacao_servidor := pyGet data "situacao_servidor",
    data_admissao := pyGet data "data_admissao",
    telefone := pyGet data "telefone", email := pyGet data "email",
    endereco := pyGet data "endereco", banco := pyGet data "banco",
    agencia := pyGet data "agencia", conta := pyGet data "conta",
    tipo_conta := pyGet data "tipo_conta",
    data_inicio_fundef := pyGet data "data_inicio_fundef",
    data_fim_fundef := pyGet data "data_fim_fundef",
    carga_horaria := pyGet data "carga_horaria",
    quantidade_meses_trabalhados := pyGet data "quantidade_meses_trabalhados",
    aceitou_declaracao := pyGet data "aceitou_declaracao",
    criado_em := p.criado_em }

/-- `update_professor(id, data)`: `UPDATE ... SET <20 cols> WHERE id = ?`.
Zero matched rows: statement succeeds, state unchanged.  A matched row is
overwritten on all 20 columns subject to the NOT NULL constraints and
UNIQUE(cpf) against the other rows; a violation aborts and rolls back the
statement. -/
def update_professor (pid : Nat) (data : Dict) (s : St) : Except DbError St :=
  if s.professores.any (fun p => p.id == pid) then
    if (updateVals data).any (· == JVal.null) then
      .error .integrityNotNull
    else if s.professores.any
        (fun p => p.id != pid && p.cpf == pyGet data "cpf") then
      .error .integrityUnique
    else
      .ok { s with professores :=
        s.professores.map (fun p => if p.id == pid then applyUpdate data p else p) }
  else .ok s

/-- `delete_professor(id)`: `DELETE FROM professores WHERE id = ?`
(physical delete; `sqlite_sequence` is not decremented). -/
def delete_professor (pid : Nat) (s : St) : St :=
  { s with professores := s.professores.filter (fun p => p.id != pid) }

/-- `find_professor_by_cpf`: `WHERE cpf = ?` + `fetchone` (first row in
rowid order), mapped through `dict(r)`. -/
def find_professor_by_cpf (c : String) (s : St) : Option Dict :=
  (s.professores.find? (fun p => p.cpf == JVal.str c)).map Prof.toDict

/-- `get_professor`: `WHERE id = ?` + `fetchone`, mapped through `dict(r)`. -/
def get_professor (pid : Nat) (s : St) : Option Dict :=
  (s.professores.find? (fun p => p.id == pid)).map Prof.toDict

/-- `ORDER BY id DESC` key: descending comparison on the row id. -/
def profGe (a b : Prof) : Prop := b.id ≤ a.id

/-- `ORDER BY id ASC` key. -/
def profLe (a b : Prof) : Prop := a.id ≤ b.id

instance : DecidableRel profGe := fun a b =>
  inferInstanceAs (Decidable (b.id ≤ a.id))

instance : DecidableRel profLe := fun a b =>
  inferInstanceAs (Decidable (a.id ≤ b.id))

instance : IsTotal Prof profGe := ⟨fun a b => Nat.le_total b.id a.id⟩

instance : IsTotal Prof profLe := ⟨fun a b => Nat.le_total a.id b.id⟩

instance : IsTrans Prof profGe := ⟨fun _ _ _ h1 h2 => Nat.le_trans h2 h1⟩

instance : IsTrans Prof profLe := ⟨fun _ _ _ h1 h2 => Nat.le_trans h1 h2⟩

/-- `list_professores(order_desc)`: `SELECT * FROM professores ORDER BY id
DESC|ASC`, rows mapped through `dict(r)`. -/
def list_professores (order_desc : Bool) (s : St) : List Dict :=
  if order_desc then
    (s.professores.insertionSort profGe).map Prof.toDict
  else
    (s.professores.insertionSort profLe).map Prof.toDict

/-- `ORDER BY datetime(atualizado_em) DESC, id DESC` key. -/
def rascGe (a b : Rasc) : Prop :=
  b.atualizado_em < a.atualizado_em ∨
    (b.atualizado_em = a.atualizado_em ∧ b.id ≤ a.id)

instance : DecidableRel rascGe := fun a b =>
  inferInstanceAs (Decidable (_ ∨ _ ∧ _))

instance : IsTotal Rasc rascGe :=
  ⟨fun a b => by
    unfold rascGe
    rcases Nat.lt_trichotomy b.atualizado_em a.atualizado_em with h | h | h
    · exact Or.inl (Or.inl h)
    · rcases Nat.le_total b.id a.id with h2 | h2
      · exact Or.inl (Or.inr ⟨h, h2⟩)
      · exact Or.inr (Or.inr ⟨h.symm, h2⟩)
    · exact Or.inr (Or.inl h)⟩

instance : IsTrans Rasc rascGe :=
  ⟨fun a b c h1 h2 => by
    unfold rascGe at *
    rcases h1 with h1 | ⟨h1e, h1i⟩ <;> rcases h2 with h2 | ⟨h2e, h2i⟩
    · exact Or.inl (by omega)
    · exact Or.inl (by omega)
    · exact Or.inl (by omega)
    · exact Or.inr ⟨by omega, Nat.le_trans h2i h1i⟩⟩

/-- `list_rascunhos()`: summary columns, `ORDER BY datetime(atualizado_em)
DESC, id DESC`. -/
def list_rascunhos (s : St) : List Dict :=
  (s.rascunhos.insertionSort rascGe).map Rasc.summaryDict

/-- The INSERT arm of `save_rascunho`: a fresh AUTOINCREMENT id, both
timestamps set to `agora`, denormalized `nome`/`cpf` pulled from the
payload with default `""`, payload serialized into `dados_json`; NOT NULL
is enforced on the two denormalized TEXT columns (an explicit `None` value
in the payload would bind NULL). Returns `cursor.lastrowid`. -/
def insertRascFresh (dados : Dict) (agora : Nat) (s : St) :
    Except DbError (Nat × St) :=
  if pyGetD dados "nome" (.str "") == JVal.null ||
      pyGetD dados "cpf" (.str "") == JVal.null then
    .error .integrityNotNull
  else
    let nid := s.seq_rascunhos + 1
    .ok (nid, { s with
      rascunhos := s.rascunhos ++
        [{ id := nid, nome_referencia := pyGetD dados "nome" (.str ""),
           cpf := pyGetD dados "cpf" (.str ""), dados_json := dados,
           criado_em := agora, atualizado_em := agora }],
      seq_rascunhos := nid })

/-- `save_rascunho(dados, rascunho_id)`: with an id whose row exists,
UPDATE in place (refresh `nome_referencia`, `cpf`, `dados_json`,
`atualizado_em`) and return that id; otherwise (id absent, or no id given)
fall through to the INSERT arm, which assigns a fresh AUTOINCREMENT id. -/
def save_rascunho (dados : Dict) (rid : Option Nat) (agora : Nat) (s : St) :
    Except DbError (Nat × St) :=
  match rid with
  | some i =>
    if s.rascunhos.any (fun r => r.id == i) then
      if pyGetD dados "nome" (.str "") == JVal.null ||
          pyGetD dados "cpf" (.str "") == JVal.null then
        .error .integrityNotNull
      else
        .ok (i, { s with rascunhos := s.rascunhos.map (fun r =>
          if r.id == i then
            { r with nome_referencia := pyGetD dados "nome" (.str ""),
                     cpf := pyGetD dados "cpf" (.str ""),
                     dados_json := dados, atualizado_em := agora }
          else r) })
    else insertRascFresh dados agora s
  | none => insertRascFresh dados agora s

/-- The structure returned by `carregar_rascunho` (a dict with the fixed
keys `id`, `dados`, `criado_em`, `atualizado_em`; `dados` is
`json.loads(dados_json)`). -/
structure Loaded where
  id : Nat
  dados : Dict
  criado_em : Nat
  atualizado_em : Nat
deriving DecidableEq, Repr

/-- `carregar_rascunho(id)`: `WHERE id = ?` + `fetchone`; `none` when
absent. -/
def carregar_rascunho (i : Nat) (s : St) : Option Loaded :=
  (s.rascunhos.find? (fun r => r.id == i)).map fun r =>
    { id := r.id, dados := r.dados_json, criado_em := r.criado_em,
      atualizado_em := r.atualizado_em }

/-- `remover_rascunho(id)`: physical delete, no-op when absent. -/
def remover_rascunho (i : Nat) (s : St) : St :=
  { s with rascunhos := s.rascunhos.filter (fun r => r.id != i) }

/-- `export_professores()`: explicit 21-column SELECT (all schema columns
except `aceitou_declaracao`), `ORDER BY id DESC`. -/
def export_professores (s : St) : List Dict :=
  (s.professores.insertionSort profGe).map Prof.exportDict

end SQ

/-! ## Firestore backend (`USE_FIREBASE=1` branch of `db_layer.py`) -/

namespace FS

/-- A Firestore document: its key (document name) and its field map. -/
structure FDoc where
  key : String
  data : Dict
deriving DecidableEq, Repr

/-- Firestore state: the `_meta/counters` document (absent on a fresh
project) holding `(last_professor_id, last_rascunho_id)`, and the
`professores` and `rascunhos_professores` collections. -/
structure St where
  meta : Option (Nat × Nat)
  professores : List FDoc
  rascunhos : List FDoc
deriving DecidableEq, Repr

/-- `init_db()`: seed the counters document if absent (idempotent). -/
def init_db (s : St) : St :=
  match s.meta with
  | some _ => s
  | none => { s with meta := some (0, 0) }

/-- State after `init_db()` on a fresh project. -/
def initState : St := init_db ⟨none, [], []⟩

/-- Which counter `_next_id` increments. -/
inductive Counter where
  | professor
  | rascunho
deriving DecidableEq, Repr

/-- `_next_id(name)`: the source returns
`db.transaction()(transaction_increment)`.  `Client.transaction()` yields a
`Transaction` object, which defines no `__call__`, so the call raises
`TypeError: 'Transaction' object is not callable` before any read or
write — the counters document is never read, incremented or written. -/
def next_id (_c : Counter) (_s : St) : Except DbError (Nat × St) :=
  .error .typeError

/-- `collection.document(k).set(d)`: overwrite the document at key `k`, or
create it. -/
def collSet (docs : List FDoc) (k : String) (d : Dict) : List FDoc :=
  if docs.any (fun x => x.key == k) then
    docs.map (fun x => if x.key == k then ⟨k, d⟩ else x)
  else docs ++ [⟨k, d⟩]

/-- Document-key order (`__name__` ascending), the iteration order of a
`where(...).stream()` query with no `order_by`. -/
def keyLe (a b : FDoc) : Prop := a.key ≤ b.key

instance : DecidableRel keyLe := fun a b =>
  inferInstanceAs (Decidable (a.key ≤ b.key))

instance : IsTotal FDoc keyLe := ⟨fun a b => le_total a.key b.key⟩

instance : IsTrans FDoc keyLe := ⟨fun _ _ _ h1 h2 => le_trans h1 h2⟩

/-- `.where(field, "==", v).limit(1).stream()`: the first matching
document in document-key order. -/
def findByField (docs : List FDoc) (field : String) (v : JVal) : Option FDoc :=
  (docs.insertionSort keyLe).find? (fun d => dictGet d.data field == some v)

/-- `insert_professor(data)`: take the next counter value, set
`payload["id"]` and `payload["criado_em"]`, and `set` document
`str(novo_id)`.  No uniqueness check of any kind is performed. -/
def insert_professor (data : Dict) (now : Nat) (s : St) :
    Except DbError (Nat × St) :=
  match next_id .professor s with
  | .error e => .error e
  | .ok (nid, s1) =>
    let payload := dictSet (dictSet data "id" (.num nid)) "criado_em" (.num now)
    .ok (nid, { s1 with professores := collSet s1.professores (toString nid) payload })

/-- `list_professores(order_desc)`: the body evaluates
`firestore.Query.DESCENDING` / `ASCENDING` to pick the direction, but the
name `firestore` is unbound at module scope (it is imported only inside
other functions), so every call raises NameError before any query is
issued. -/
def list_professores (_order_desc : Bool) (_s : St) :
    Except DbError (List Dict) :=
  .error .nameError

/-- `list_rascunhos()`: its `order_by` call evaluates
`firestore.Query.DESCENDING`, so every call raises NameError before any
query is issued. -/
def list_rascunhos (_s : St) : Except DbError (List Dict) :=
  .error .nameError

/-- `find_professor_by_cpf(cpf)`. -/
def find_professor_by_cpf (c : String) (s : St) : Option Dict :=
  (findByField s.professores "cpf" (.str c)).map FDoc.data

/-- `get_professor(id)`. -/
def get_professor (pid : Nat) (s : St) : Option Dict :=
  (findByField s.professores "id" (.num pid)).map FDoc.data

/-- `update_professor(id, data)`: find the first document whose `id` field
matches; if found, `document.update(data)` — a merge of `data` into the
stored fields; silently returns if no document matches. -/
def update_professor (pid : Nat) (data : Dict) (s : St) : St :=
  match findByField s.professores "id" (.num pid) with
  | none => s
  | some d => { s with professores := s.professores.map (fun x =>
      if x.key == d.key then ⟨x.key, dictMerge x.data data⟩ else x) }

/-- `delete_professor(id)`: delete the first matching document, silently
return if none matches. -/
def delete_professor (pid : Nat) (s : St) : St :=
  match findByField s.professores "id" (.num pid) with
  | none => s
  | some d => { s with professores := s.professores.filter (fun x => x.key != d.key) }

/-- `save_rascunho(dados, rascunho_id)`: with no id, take the next counter
value and `set` a new document whose fields are the payload plus `id`,
`criado_em`, `atualizado_em`; with an id whose document exists,
`document.update` (merge) the payload plus a refreshed `atualizado_em`;
with an id and no document, create the document at that id. -/
def save_rascunho (dados : Dict) (rid : Option Nat) (agora : Nat) (s : St) :
    Except DbError (Nat × St) :=
  match rid with
  | none =>
    match next_id .rascunho s with
    | .error e => .error e
    | .ok (nid, s1) =>
      let payload := dictSet (dictSet (dictSet dados "id" (.num nid))
        "criado_em" (.num agora)) "atualizado_em" (.num agora)
      .ok (nid, { s1 with rascunhos := collSet s1.rascunhos (toString nid) payload })
  | some i =>
    match findByField s.rascunhos "id" (.num i) with
    | some d =>
      let payload := dictSet dados "atualizado_em" (.num agora)
      .ok (i, { s with rascunhos := s.rascunhos.map (fun x =>
        if x.key == d.key then ⟨x.key, dictMerge x.data payload⟩ else x) })
    | none =>
      let payload := dictSet (dictSet (dictSet dados "id" (.num i))
        "criado_em" (.num agora)) "atualizado_em" (.num agora)
      .ok (i, { s with rascunhos := collSet s.rascunhos (toString i) payload })

/-- `carregar_rascunho(id)`: the first matching document's `to_dict()` (the
full document — payload merged with `id`, `criado_em`, `atualizado_em`). -/
def carregar_rascunho (i : Nat) (s : St) : Option Dict :=
  (findByField s.rascunhos "id" (.num i)).map FDoc.data

/-- `remover_rascunho(id)`. -/
def remover_rascunho (i : Nat) (s : St) : St :=
  match findByField s.rascunhos "id" (.num i) with
  | none => s
  | some d => { s with rascunhos := s.rascunhos.filter (fun x => x.key != d.key) }

/-- `export_professores()`: literally `list_professores(order_desc=True)`
(and therefore raises the same NameError). -/
def export_professores (s : St) : Except DbError (List Dict) :=
  list_professores true s

end FS

/-! ## Operation traces

A sequence of calls against a single backend instance, used to state
trace properties (id monotonicity) and to build concrete reachable states.
A failed call (a raised exception) leaves the store unchanged: sqlite rolls
the statement back, Firestore's failed transaction writes nothing. -/

/-- One persistence-layer call with its arguments. -/
inductive Op where
  | insertP (data : Dict)
  | updateP (pid : Nat) (data : Dict)
  | deleteP (pid : Nat)
  | saveR (dados : Dict) (rid : Option Nat)
  | removeR (rid : Nat)
deriving Repr

/-- Execute one call on the SQLite backend at time `now`; the second
component is the id returned when the call was a successful
`insert_professor`. -/
def sqStep (s : SQ.St) (op : Op) (now : Nat) : SQ.St × Option Nat :=
  match op with
  | .insertP data =>
    match SQ.insert_professor data now s with
    | .ok (i, s') => (s', some i)
    | .error _ => (s, none)
  | .updateP pid data =>
    match SQ.update_professor pid data s with
    | .ok s' => (s', none)
    | .error _ => (s, none)
  | .deleteP pid => (SQ.delete_professor pid s, none)
  | .saveR dados rid =>
    match SQ.save_rascunho dados rid now s with
    | .ok (_, s') => (s', none)
    | .error _ => (s, none)
  | .removeR rid => (SQ.remover_rascunho rid s, none)

/-- Run a trace on the SQLite backend, collecting the ids returned by the
successful inserts (the clock ticks once per call). -/
def sqRun (s : SQ.St) (t : Nat) : List Op → SQ.St × List Nat
  | [] => (s, [])
  | op :: ops =>
    ((sqRun (sqStep s op t).1 (t + 1) ops).1,
     (sqStep s op t).2.toList ++ (sqRun (sqStep s op t).1 (t + 1) ops).2)

/-- Execute one call on the Firestore backend at time `now`. -/
def fsStep (s : FS.St) (op : Op) (now : Nat) : FS.St × Option Nat :=
  match op with
  | .insertP data =>
    match FS.insert_professor data now s with
    | .ok (i, s') => (s', some i)
    | .error _ => (s, none)
  | .updateP pid data => (FS.update_professor pid data s, none)
  | .deleteP pid => (FS.delete_professor pid s, none)
  | .saveR dados rid =>
    match FS.save_rascunho dados rid now s with
    | .ok (_, s') => (s', none)
    | .error _ => (s, none)
  | .removeR rid => (FS.remover_rascunho rid s, none)

/-- Run a trace on the Firestore backend, collecting the ids returned by
the successful inserts. -/
def fsRun (s : FS.St) (t : Nat) : List Op → FS.St × List Nat
  | [] => (s, [])
  | op :: ops =>
    ((fsRun (fsStep s op t).1 (t + 1) ops).1,
     (fsStep s op t).2.toList ++ (fsRun (fsStep s op t).1 (t + 1) ops).2)

/-- The value of `last_professor_id` in the counters document (0 when the
document is absent). -/
def FS.counterProf (s : FS.St) : Nat :=
  match s.meta with
  | some pr => pr.1
  | none => 0

/-- Well-formed `insert_professor` input: the three `int(...)` conversions
succeed and none of the 17 TEXT bindings is NULL (so the INSERT is not
rejected before the uniqueness check). -/
def SQ.wfInsertData (data : Dict) : Prop :=
  (pyIntD data "carga_horaria").isSome ∧
  (pyIntD data "quantidade_meses_trabalhados").isSome ∧
  (pyIntD data "aceitou_declaracao").isSome ∧
  ((SQ.insertTextVals data).any (· == JVal.null)) = false

/-- Well-formed draft payload: the two denormalized TEXT bindings
(`dados.get("nome", "")`, `dados.get("cpf", "")`) are not NULL. -/
def SQ.wfRascData (dados : Dict) : Prop :=
  (pyGetD dados "nome" (.str "") == JVal.null) = false ∧
  (pyGetD dados "cpf" (.str "") == JVal.null) = false

/-! ## General-purpose lemmas -/

theorem dictGet_dictSet_self (d : Dict) (k : String) (v : JVal) :
    dictGet (dictSet d k v) k = some v := by
  induction d with
  | nil => simp [dictSet, dictGet]
  | cons kv rest ih =>
    obtain ⟨k', v'⟩ := kv
    by_cases h : k' = k
    · simp [dictSet, dictGet, h]
    · simp [dictSet, dictGet, h, ih]

theorem dictGet_dictSet_ne (d : Dict) {k k' : String} (v : JVal)
    (h : k' ≠ k) : dictGet (dictSet d k v) k' = dictGet d k' := by
  induction d with
  | nil => simp [dictSet, dictGet, h, Ne.symm h]
  | cons kv rest ih =>
    obtain ⟨k0, v0⟩ := kv
    by_cases h0 : k0 = k
    · subst h0
      simp [dictSet, dictGet, Ne.symm h]
    · by_cases h1 : k0 = k'
      · subst h1
        simp [dictSet, dictGet, h0, h]
      · simp [dictSet, dictGet, h0, h1, ih]

theorem find?_of_mem_unique {α : Type _} (p : α → Bool) {l : List α} {x : α}
    (hx : x ∈ l) (hpx : p x = true) (hu : ∀ y ∈ l, p y = true → y = x) :
    l.find? p = some x := by
  induction l with
  | nil => cases hx
  | cons a l ih =>
    by_cases hpa : p a = true
    · have ha : a = x := hu a (List.mem_cons_self a l) hpa
      subst ha
      simp [List.find?_cons_of_pos _ hpa]
    · rw [List.find?_cons_of_neg _ (by simpa using hpa)]
      rcases List.mem_cons.mp hx with rfl | hx'
      · exact absurd hpx hpa
      · exact ih hx' (fun y hy hp => hu y (List.mem_cons_of_mem _ hy) hp)

/-- A list pairwise-sorted by a non-increasing integer key whose keys are
pairwise distinct is strictly decreasing on the key. -/
theorem pairwise_strict_desc {α : Type _} (key : α → Int) {l : List α}
    (hs : l.Pairwise (fun a b => key b ≤ key a))
    (hn : (l.map key).Nodup) :
    l.Pairwise (fun a b => key b < key a) := by
  have hne : l.Pairwise (fun a b => key a ≠ key b) := List.pairwise_map.mp hn
  exact (hs.and hne).imp (fun h => lt_of_le_of_ne h.1 (Ne.symm h.2))

/-- A list pairwise-sorted by a non-decreasing integer key whose keys are
pairwise distinct is strictly increasing on the key. -/
theorem pairwise_strict_asc {α : Type _} (key : α → Int) {l : List α}
    (hs : l.Pairwise (fun a b => key a ≤ key b))
    (hn : (l.map key).Nodup) :
    l.Pairwise (fun a b => key a < key b) := by
  have hne : l.Pairwise (fun a b => key a ≠ key b) := List.pairwise_map.mp hn
  exact (hs.and hne).imp (fun h => lt_of_le_of_ne h.1 h.2)

/-! ## Frame and id-assignment lemmas for the trace semantics -/

theorem SQ.insert_professor_ok {data : Dict} {now : Nat} {s : SQ.St}
    {p : Nat × SQ.St} (h : SQ.insert_professor data now s = .ok p) :
    p.1 = s.seq_professores + 1 ∧
    p.2.seq_professores = s.seq_professores + 1 ∧
    p.2.seq_rascunhos = s.seq_rascunhos ∧ p.2.rascunhos = s.rascunhos := by
  unfold SQ.insert_professor at h
  repeat' split at h
  all_goals try cases h
  all_goals simp_all

theorem SQ.update_professor_ok {pid : Nat} {data : Dict} {s s' : SQ.St}
    (h : SQ.update_professor pid data s = .ok s') :
    s'.seq_professores = s.seq_professores ∧
    s'.seq_rascunhos = s.seq_rascunhos ∧ s'.rascunhos = s.rascunhos := by
  unfold SQ.update_professor at h
  repeat' split at h
  all_goals try cases h
  all_goals simp_all

theorem SQ.save_rascunho_ok_frame {dados : Dict} {rid : Option Nat}
    {agora : Nat} {s : SQ.St} {p : Nat × SQ.St}
    (h : SQ.save_rascunho dados rid agora s = .ok p) :
    p.2.seq_professores = s.seq_professores ∧
    p.2.professores = s.professores := by
  unfold SQ.save_rascunho SQ.insertRascFresh at h
  repeat' split at h
  all_goals try cases h
  all_goals simp_all

theorem sqStep_seq (s : SQ.St) (op : Op) (t : Nat) :
    s.seq_professores ≤ (sqStep s op t).1.seq_professores ∧
    ∀ i, (sqStep s op t).2 = some i →
      i = s.seq_professores + 1 ∧
      (sqStep s op t).1.seq_professores = i := by
  cases op with
  | insertP data =>
    simp only [sqStep]
    cases h : SQ.insert_professor data t s with
    | ok p =>
      obtain ⟨h1, h2, _, _⟩ := SQ.insert_professor_ok h
      simp only []
      constructor
      · omega
      · intro i hi
        simp only [Option.some.injEq] at hi
        omega
    | error e => simp
  | updateP pid data =>
    simp only [sqStep]
    cases h : SQ.update_professor pid data s with
    | ok s' =>
      obtain ⟨h1, _, _⟩ := SQ.update_professor_ok h
      simp [h1]
    | error e => simp
  | deleteP pid => simp [sqStep, SQ.delete_professor]
  | saveR dados rid =>
    simp only [sqStep]
    cases h : SQ.save_rascunho dados rid t s with
    | ok p =>
      obtain ⟨h1, _⟩ := SQ.save_rascunho_ok_frame h
      simp [h1]
    | error e => simp
  | removeR rid => simp [sqStep, SQ.remover_rascunho]

theorem sqRun_lb (ops : List Op) :
    ∀ (s : SQ.St) (t : Nat), ∀ i ∈ (sqRun s t ops).2,
      s.seq_professores < i := by
  induction ops with
  | nil => intro s t i hi; simp [sqRun] at hi
  | cons op ops ih =>
    intro s t i hi
    simp only [sqRun, List.mem_append] at hi
    rcases hi with hi | hi
    · rcases hopt : (sqStep s op t).2 with _ | j
      · rw [hopt] at hi; simp at hi
      · rw [hopt] at hi
        simp only [Option.toList_some, List.mem_singleton] at hi
        subst hi
        have := (sqStep_seq s op t).2 i hopt
        omega
    · have h1 := ih (sqStep s op t).1 (t + 1) i hi
      have h2 := (sqStep_seq s op t).1
      omega

theorem sqRun_pairwise (ops : List Op) :
    ∀ (s : SQ.St) (t : Nat), ((sqRun s t ops).2).Pairwise (· < ·) := by
  induction ops with
  | nil => intro s t; simp [sqRun]
  | cons op ops ih =>
    intro s t
    simp only [sqRun]
    rw [List.pairwise_append]
    refine ⟨?_, ih _ _, ?_⟩
    · rcases hopt : (sqStep s op t).2 with _ | j <;> simp
    · intro a ha b hb
      rcases hopt : (sqStep s op t).2 with _ | j
      · rw [hopt] at ha; simp at ha
      · rw [hopt] at ha
        simp only [Option.toList_some, List.mem_singleton] at ha
        subst ha
        have h1 := (sqStep_seq s op t).2 a hopt
        have h2 := sqRun_lb ops (sqStep s op t).1 (t + 1) b hb
        omega

theorem FS.insert_professor_raises (data : Dict) (now : Nat) (s : FS.St) :
    FS.insert_professor data now s = .error .typeError := rfl

theorem FS.save_rascunho_none_raises (dados : Dict) (agora : Nat)
    (s : FS.St) :
    FS.save_rascunho dados none agora s = .error .typeError := rfl

theorem FS.update_professor_meta (pid : Nat) (data : Dict) (s : FS.St) :
    (FS.update_professor pid data s).meta = s.meta := by
  unfold FS.update_professor
  split <;> rfl

theorem FS.delete_professor_meta (pid : Nat) (s : FS.St) :
    (FS.delete_professor pid s).meta = s.meta := by
  unfold FS.delete_professor
  split <;> rfl

theorem FS.save_rascunho_ok_counterProf {dados : Dict} {rid : Option Nat}
    {agora : Nat} {s : FS.St} {p : Nat × FS.St}
    (h : FS.save_rascunho dados rid agora s = .ok p) :
    FS.counterProf p.2 = FS.counterProf s := by
  cases rid with
  | none => simp [FS.save_rascunho_none_raises] at h
  | some i =>
    cases hf : FS.findByField s.rascunhos "id" (.num i) with
    | none =>
      simp only [FS.save_rascunho, hf, Except.ok.injEq] at h
      subst h
      simp [FS.counterProf]
    | some d =>
      simp only [FS.save_rascunho, hf, Except.ok.injEq] at h
      subst h
      simp [FS.counterProf]

theorem FS.remover_rascunho_meta (i : Nat) (s : FS.St) :
    (FS.remover_rascunho i s).meta = s.meta := by
  unfold FS.remover_rascunho
  split <;> rfl

theorem fsStep_seq (s : FS.St) (op : Op) (t : Nat) :
    FS.counterProf s ≤ FS.counterProf (fsStep s op t).1 ∧
    ∀ i, (fsStep s op t).2 = some i →
      i = FS.counterProf s + 1 ∧
      FS.counterProf (fsStep s op t).1 = i := by
  cases op with
  | insertP data =>
    simp [fsStep, FS.insert_professor_raises]
  | updateP pid data =>
    simp [fsStep, FS.counterProf, FS.update_professor_meta]
  | deleteP pid =>
    simp [fsStep, FS.counterProf, FS.delete_professor_meta]
  | saveR dados rid =>
    simp only [fsStep]
    cases h : FS.save_rascunho dados rid t s with
    | ok p =>
      have h1 := FS.save_rascunho_ok_counterProf h
      simp [h1]
    | error e => simp
  | removeR rid =>
    simp [fsStep, FS.counterProf, FS.remover_rascunho_meta]

theorem fsRun_lb (ops : List Op) :
    ∀ (s : FS.St) (t : Nat), ∀ i ∈ (fsRun s t ops).2,
      FS.counterProf s < i := by
  induction ops with
  | nil => intro s t i hi; simp [fsRun] at hi
  | cons op ops ih =>
    intro s t i hi
    simp only [fsRun, List.mem_append] at hi
    rcases hi with hi | hi
    · rcases hopt : (fsStep s op t).2 with _ | j
      · rw [hopt] at hi; simp at hi
      · rw [hopt] at hi
        simp only [Option.toList_some, List.mem_singleton] at hi
        subst hi
        have := (fsStep_seq s op t).2 i hopt
        omega
    · have h1 := ih (fsStep s op t).1 (t + 1) i hi
      have h2 := (fsStep_seq s op t).1
      omega

theorem fsRun_pairwise (ops : List Op) :
    ∀ (s : FS.St) (t : Nat), ((fsRun s t ops).2).Pairwise (· < ·) := by
  induction ops with
  | nil => intro s t; simp [fsRun]
  | cons op ops ih =>
    intro s t
    simp only [fsRun]
    rw [List.pairwise_append]
    refine ⟨?_, ih _ _, ?_⟩
    · rcases hopt : (fsStep s op t).2 with _ | j <;> simp
    · intro a ha b hb
      rcases hopt : (fsStep s op t).2 with _ | j
      · rw [hopt] at ha; simp at ha
      · rw [hopt] at ha
        simp only [Option.toList_some, List.mem_singleton] at ha
        subst ha
        have h1 := (fsStep_seq s op t).2 a hopt
        have h2 := fsRun_lb ops (fsStep s op t).1 (t + 1) b hb
        omega

/-! ## Concrete sample data (for counterexamples and witnesses) -/

/-- A fully populated registration, as the application layer submits it. -/
def sampleProfData : Dict :=
  [("nome", .str "Ana"), ("cpf", .str "111.111.111-11"), ("rg", .str "1"),
   ("matricula", .str "m1"), ("escola", .str "E1"), ("cargo", .str "Prof"),
   ("situacao_servidor", .str "ativo"),
   ("data_admissao", .str "2000-01-01"), ("telefone", .str "t1"),
   ("email", .str "a@e"), ("endereco", .str "rua 1"), ("banco", .str "B"),
   ("agencia", .str "ag"), ("conta", .str "c1"), ("tipo_conta", .str "cc"),
   ("data_inicio_fundef", .str "1997-01-01"),
   ("data_fim_fundef", .str "2006-12-31"), ("carga_horaria", .num 40),
   ("quantidade_meses_trabalhados", .num 100),
   ("aceitou_declaracao", .num 1)]

/-- A second fully populated registration with a distinct cpf. -/
def sampleProfData2 : Dict :=
  [("nome", .str "Bia"), ("cpf", .str "222.222.222-22"), ("rg", .str "2"),
   ("matricula", .str "m2"), ("escola", .str "E2"), ("cargo", .str "Prof"),
   ("situacao_servidor", .str "ativo"),
   ("data_admissao", .str "2001-01-01"), ("telefone", .str "t2"),
   ("email", .str "b@e"), ("endereco", .str "rua 2"), ("banco", .str "B"),
   ("agencia", .str "ag"), ("conta", .str "c2"), ("tipo_conta", .str "cc"),
   ("data_inicio_fundef", .str "1997-01-01"),
   ("data_fim_fundef", .str "2006-12-31"), ("carga_horaria", .num 20),
   ("quantidade_meses_trabalhados", .num 50),
   ("aceitou_declaracao", .num 0)]

/-- SQLite state reached from `init_db` by inserting `sampleProfData`. -/
def sqState1 : SQ.St := (sqRun SQ.initState 0 [.insertP sampleProfData]).1

/-- SQLite state reached by inserting both sample registrations. -/
def sqState2 : SQ.St :=
  (sqRun SQ.initState 0 [.insertP sampleProfData, .insertP sampleProfData2]).1

/-- Firestore state after `init_db` and an attempted insert of
`sampleProfData` (the insert raises TypeError in `_next_id` and stores
nothing, so the collections stay empty). -/
def fsState1 : FS.St := (fsRun FS.initState 0 [.insertP sampleProfData]).1

/-! ## Claim theorems -/

/-- C7: across every sequence of operations against a single backend
instance, the ids returned by successful `insert_professor` calls are
pairwise strictly increasing — so successive insert ids strictly increase
and an id, once assigned, is never handed out again, even after the record
holding it is deleted — in both backends (SQLite assigns one past the
AUTOINCREMENT high-water mark, which deletes never lower; the document
backend's inserts crash in `_next_id` and so return no ids at all, which
satisfies the property over returned ids trivially). -/
theorem C7_insert_id_monotonicity :
    (∀ (s : SQ.St) (t : Nat) (ops : List Op),
      ((sqRun s t ops).2).Pairwise (· < ·)) ∧
    (∀ (s : FS.St) (t : Nat) (ops : List Op),
      ((fsRun s t ops).2).Pairwise (· < ·)) :=
  ⟨fun s t ops => sqRun_pairwise ops s t, fun s t ops => fsRun_pairwise ops s t⟩

/-- C8: when no record has id `i`, `update_professor(i, data)` and
`delete_professor(i)` return without error and leave the store unchanged
(silent no-ops), in both backends. -/
theorem C8_update_delete_missing_noop (i : Nat) (data : Dict)
    (s : SQ.St) (f : FS.St)
    (hs : ∀ p ∈ s.professores, p.id ≠ i)
    (hf : FS.findByField f.professores "id" (.num i) = none) :
    SQ.update_professor i data s = .ok s ∧
    SQ.delete_professor i s = s ∧
    FS.update_professor i data f = f ∧
    FS.delete_professor i f = f := by
  refine ⟨?_, ?_, ?_, ?_⟩
  · unfold SQ.update_professor
    rw [if_neg]
    simp only [List.any_eq_true, beq_iff_eq, not_exists]
    intro p
    rw [not_and]
    exact hs p
  · unfold SQ.delete_professor
    have : s.professores.filter (fun p => p.id != i) = s.professores :=
      List.filter_eq_self.mpr (fun p hp => by simpa using hs p hp)
    cases s
    simp_all
  · unfold FS.update_professor
    rw [hf]
  · unfold FS.delete_professor
    rw [hf]

/-- C8 witness: with the record of id 1 present in the relational store
(the document store, whose insert path crashes, stays empty), update and
delete of the absent id 999 are accepted no-ops in both backends. -/
theorem C8_update_delete_missing_noop_witness :
    SQ.update_professor 999 [] sqState1 = .ok sqState1 ∧
    SQ.delete_professor 999 sqState1 = sqState1 ∧
    FS.update_professor 999 [] fsState1 = fsState1 ∧
    FS.delete_professor 999 fsState1 = fsState1 :=
  C8_update_delete_missing_noop 999 [] sqState1 fsState1
    (by decide) (by decide)

theorem SQ.dictNum_toDict_id (p : SQ.Prof) :
    dictNum (SQ.Prof.toDict p) "id" = (p.id : Int) := rfl

theorem SQ.dictNum_summary_id (r : SQ.Rasc) :
    dictNum (SQ.Rasc.summaryDict r) "id" = (r.id : Int) := rfl

theorem SQ.dictNum_summary_upd (r : SQ.Rasc) :
    dictNum (SQ.Rasc.summaryDict r) "atualizado_em" = (r.atualizado_em : Int) := rfl

theorem SQ.list_prof_desc_strict (s : SQ.St)
    (hs : (s.professores.map SQ.Prof.id).Nodup) :
    (SQ.list_professores true s).Pairwise
      (fun a b => dictNum b "id" < dictNum a "id") := by
  have hsorted : (s.professores.insertionSort SQ.profGe).Pairwise
      (fun a b => ((b.id : Int)) ≤ (a.id : Int)) :=
    (List.sorted_insertionSort SQ.profGe s.professores).imp
      (fun h => Int.ofNat_le.mpr h)
  have hbase : (s.professores.map (fun p => (p.id : Int))).Nodup := by
    have := hs.map Nat.cast_injective (β := Int)
    rwa [List.map_map] at this
  have hn : ((s.professores.insertionSort SQ.profGe).map
      (fun p => (p.id : Int))).Nodup :=
    (((List.perm_insertionSort SQ.profGe s.professores).map _).nodup_iff).mpr hbase
  have hstrict := pairwise_strict_desc (fun p : SQ.Prof => (p.id : Int)) hsorted hn
  simp only [SQ.list_professores, if_true]
  exact List.pairwise_map.mpr (hstrict.imp (fun h => by
    rwa [SQ.dictNum_toDict_id, SQ.dictNum_toDict_id]))

theorem SQ.list_prof_asc_strict (s : SQ.St)
    (hs : (s.professores.map SQ.Prof.id).Nodup) :
    (SQ.list_professores false s).Pairwise
      (fun a b => dictNum a "id" < dictNum b "id") := by
  have hsorted : (s.professores.insertionSort SQ.profLe).Pairwise
      (fun a b => ((a.id : Int)) ≤ (b.id : Int)) :=
    (List.sorted_insertionSort SQ.profLe s.professores).imp
      (fun h => Int.ofNat_le.mpr h)
  have hbase : (s.professores.map (fun p => (p.id : Int))).Nodup := by
    have := hs.map Nat.cast_injective (β := Int)
    rwa [List.map_map] at this
  have hn : ((s.professores.insertionSort SQ.profLe).map
      (fun p => (p.id : Int))).Nodup :=
    (((List.perm_insertionSort SQ.profLe s.professores).map _).nodup_iff).mpr hbase
  have hstrict := pairwise_strict_asc (fun p : SQ.Prof => (p.id : Int)) hsorted hn
  simp only [SQ.list_professores, Bool.false_eq_true, if_false]
  exact List.pairwise_map.mpr (hstrict.imp (fun h => by
    rwa [SQ.dictNum_toDict_id, SQ.dictNum_toDict_id]))

/-- C9 counterexample: the document backend's `list_professores` raises
NameError on every call (the module global `firestore` it references is
never bound) — already on the freshly initialized store it returns an
error rather than a sequence, in either direction, so no ordering claim
can hold for the document backend. -/
theorem C9_document_listing_crashes :
    FS.list_professores true FS.initState = .error .nameError ∧
    FS.list_professores false FS.initState = .error .nameError :=
  ⟨rfl, rfl⟩

/-- C9 (amended): on every relational store whose record ids are pairwise
distinct, `list_professores(True)` returns records in strictly descending
id order and `list_professores(False)` in strictly ascending id order; in
the document backend every `list_professores` call fails with NameError
(unbound module global `firestore`) and returns no sequence at all. -/
theorem C9_list_professores_ordering (s : SQ.St)
    (hs : (s.professores.map SQ.Prof.id).Nodup) :
    (SQ.list_professores true s).Pairwise
      (fun a b => dictNum b "id" < dictNum a "id") ∧
    (SQ.list_professores false s).Pairwise
      (fun a b => dictNum a "id" < dictNum b "id") ∧
    (∀ (b : Bool) (f : FS.St),
      FS.list_professores b f = .error .nameError) :=
  ⟨SQ.list_prof_desc_strict s hs, SQ.list_prof_asc_strict s hs,
   fun _ _ => rfl⟩

/-- C9 witness: both relational orderings hold on the two-record store,
and the document backend's listing error is universal. -/
theorem C9_list_professores_ordering_witness :
    (SQ.list_professores true sqState2).Pairwise
      (fun a b => dictNum b "id" < dictNum a "id") ∧
    (SQ.list_professores false sqState2).Pairwise
      (fun a b => dictNum a "id" < dictNum b "id") ∧
    (∀ (b : Bool) (f : FS.St),
      FS.list_professores b f = .error .nameError) :=
  C9_list_professores_ordering sqState2 (by decide)

theorem SQ.exportDict_eq_filter (p : SQ.Prof) :
    SQ.Prof.exportDict p = (SQ.Prof.toDict p).filter
      (fun kv => kv.1 != "aceitou_declaracao") := rfl

/-- C3 counterexample: on the reachable one-record SQLite store,
`export_professores()` does not return the same dicts as
`list_professores(True)` — its rows are missing the
`aceitou_declaracao` (declaration-accepted) column that `SELECT *`
returns. -/
theorem C3_export_not_field_complete_sq :
    SQ.export_professores sqState1 ≠ SQ.list_professores true sqState1 ∧
    dictGet ((SQ.export_professores sqState1).headD []) "aceitou_declaracao"
      = none ∧
    dictGet ((SQ.list_professores true sqState1).headD []) "aceitou_declaracao"
      = some (.num 1) :=
  ⟨by decide, by decide, by decide⟩

/-- C3 (amended): in the document backend `export_professores()` is
literally `list_professores(True)` (full documents, field-complete); in the
relational backend it returns the same records in the same id-descending
order but projected on 21 columns — every `SELECT *` column except the
declaration-accepted flag `aceitou_declaracao`. -/
theorem C3_export_refinement :
    (∀ f : FS.St, FS.export_professores f = FS.list_professores true f) ∧
    (∀ s : SQ.St, SQ.export_professores s =
      (SQ.list_professores true s).map
        (fun d => d.filter (fun kv => kv.1 != "aceitou_declaracao"))) := by
  refine ⟨fun f => rfl, fun s => ?_⟩
  simp only [SQ.export_professores, SQ.list_professores, if_true, List.map_map]
  exact List.map_congr_left (fun p _ => SQ.exportDict_eq_filter p)

theorem pairwise_strict_lex_rasc {l : List SQ.Rasc}
    (hs : l.Pairwise SQ.rascGe) (hn : (l.map SQ.Rasc.id).Nodup) :
    l.Pairwise (fun a b => b.atualizado_em < a.atualizado_em ∨
      (b.atualizado_em = a.atualizado_em ∧ b.id < a.id)) := by
  have hne : l.Pairwise (fun a b => a.id ≠ b.id) := List.pairwise_map.mp hn
  refine (hs.and hne).imp ?_
  rintro a b ⟨hge, hne'⟩
  rcases hge with h | ⟨he, hid⟩
  · exact Or.inl h
  · exact Or.inr ⟨he, Nat.lt_of_le_of_ne hid (fun hh => hne' hh.symm)⟩

/-- Firestore draft state reached via the working explicit-id save arm:
`save_rascunho({"x": 7}, rascunho_id=1)` on the fresh store creates the
draft document at id 1 (the no-id arm would crash in `_next_id`). -/
def c4fsState : FS.St :=
  (fsRun FS.initState 0 [.saveR [("x", .num 7)] (some 1)]).1

/-- SQLite draft store with two drafts saved at ticks 0 and 1. -/
def sqDraftState2 : SQ.St :=
  (sqRun SQ.initState 0
    [.saveR [("nome", .str "Ana")] none, .saveR [("nome", .str "Bia")] none]).1

/-- C4 counterexample: on the reachable Firestore store that holds the
draft created at id 1 from payload `{"x": 7}` (visible through
`carregar_rascunho`), `list_rascunhos()` raises NameError — the unbound
module global `firestore` — so the document backend never returns the
claimed summary entries at all. -/
theorem C4_document_listing_crashes :
    FS.carregar_rascunho 1 c4fsState =
      some [("x", .num 7), ("id", .num 1), ("criado_em", .num 0),
        ("atualizado_em", .num 0)] ∧
    FS.list_rascunhos c4fsState = .error .nameError :=
  ⟨by decide, rfl⟩

/-- C4 (amended): in the relational backend `list_rascunhos()` returns
exactly the summary columns `{id, nome_referencia, cpf, atualizado_em,
criado_em}` (payload excluded) ordered by `atualizado_em` descending with
ties broken by id descending (given the id-uniqueness invariant); in the
document backend every `list_rascunhos()` call fails with NameError
(unbound module global `firestore`) and returns no entries. -/
theorem C4_list_rascunhos_shape_order (s : SQ.St)
    (hs : (s.rascunhos.map SQ.Rasc.id).Nodup) :
    (∀ e ∈ SQ.list_rascunhos s, e.map Prod.fst =
      ["id", "nome_referencia", "cpf", "atualizado_em", "criado_em"]) ∧
    (SQ.list_rascunhos s).Pairwise
      (fun a b => dictNum b "atualizado_em" < dictNum a "atualizado_em" ∨
        (dictNum b "atualizado_em" = dictNum a "atualizado_em" ∧
         dictNum b "id" < dictNum a "id")) ∧
    (∀ f : FS.St, FS.list_rascunhos f = .error .nameError) := by
  refine ⟨?_, ?_, fun _ => rfl⟩
  · intro e he
    simp only [SQ.list_rascunhos, List.mem_map] at he
    obtain ⟨r, _, rfl⟩ := he
    rfl
  · have hsorted := List.sorted_insertionSort SQ.rascGe s.rascunhos
    have hn : ((s.rascunhos.insertionSort SQ.rascGe).map SQ.Rasc.id).Nodup :=
      (((List.perm_insertionSort SQ.rascGe s.rascunhos).map _).nodup_iff).mpr hs
    have hstrict := pairwise_strict_lex_rasc hsorted hn
    unfold SQ.list_rascunhos
    refine List.pairwise_map.mpr (hstrict.imp ?_)
    intro a b h
    rw [SQ.dictNum_summary_id, SQ.dictNum_summary_id,
        SQ.dictNum_summary_upd, SQ.dictNum_summary_upd]
    rcases h with h | ⟨he, hid⟩
    · exact Or.inl (by exact_mod_cast h)
    · exact Or.inr ⟨by exact_mod_cast he, by exact_mod_cast hid⟩

/-- C4 witness: the amended statement instantiated on the reachable
two-draft relational store. -/
theorem C4_list_rascunhos_shape_order_witness :
    (∀ e ∈ SQ.list_rascunhos sqDraftState2, e.map Prod.fst =
      ["id", "nome_referencia", "cpf", "atualizado_em", "criado_em"]) ∧
    (SQ.list_rascunhos sqDraftState2).Pairwise
      (fun a b => dictNum b "atualizado_em" < dictNum a "atualizado_em" ∨
        (dictNum b "atualizado_em" = dictNum a "atualizado_em" ∧
         dictNum b "id" < dictNum a "id")) ∧
    (∀ f : FS.St, FS.list_rascunhos f = .error .nameError) :=
  C4_list_rascunhos_shape_order sqDraftState2 (by decide)

theorem SQ.insert_professor_conflict {data : Dict} {now : Nat} {s : SQ.St}
    (hwf : SQ.wfInsertData data)
    (hdup : ∃ p ∈ s.professores, p.cpf = pyGet data "cpf") :
    SQ.insert_professor data now s = .error .integrityUnique := by
  obtain ⟨hch, hqm, had, hnull⟩ := hwf
  rcases Option.isSome_iff_exists.mp hch with ⟨ch, hch'⟩
  rcases Option.isSome_iff_exists.mp hqm with ⟨qm, hqm'⟩
  rcases Option.isSome_iff_exists.mp had with ⟨ad, had'⟩
  have hdup' : s.professores.any (fun p => p.cpf == pyGet data "cpf") = true :=
    List.any_eq_true.mpr
      (by obtain ⟨p, hp, he⟩ := hdup; exact ⟨p, hp, beq_iff_eq.mpr he⟩)
  unfold SQ.insert_professor
  rw [hch', hqm', had']
  simp [hnull, hdup']

theorem SQ.insert_professor_fresh {data : Dict} {now : Nat} {s : SQ.St}
    (hwf : SQ.wfInsertData data)
    (hfresh : ∀ p ∈ s.professores, p.cpf ≠ pyGet data "cpf") :
    ∃ ch qm ad, SQ.insert_professor data now s =
      .ok (s.seq_professores + 1,
        { s with
            professores := s.professores ++
              [SQ.profFromData (s.seq_professores + 1) data ch qm ad now],
            seq_professores := s.seq_professores + 1 }) := by
  obtain ⟨hch, hqm, had, hnull⟩ := hwf
  rcases Option.isSome_iff_exists.mp hch with ⟨ch, hch'⟩
  rcases Option.isSome_iff_exists.mp hqm with ⟨qm, hqm'⟩
  rcases Option.isSome_iff_exists.mp had with ⟨ad, had'⟩
  have hfr : s.professores.any (fun p => p.cpf == pyGet data "cpf") = false := by
    rw [← Bool.not_eq_true, List.any_eq_true]
    rintro ⟨p, hp, he⟩
    exact hfresh p hp (beq_iff_eq.mp he)
  refine ⟨ch, qm, ad, ?_⟩
  unfold SQ.insert_professor
  rw [hch', hqm', had']
  simp [hnull, hfr]

/-- Firestore state after two attempted inserts of the same registration
(both raise TypeError in `_next_id` and store nothing). -/
def c2fsState : FS.St :=
  (fsRun FS.initState 0 [.insertP sampleProfData, .insertP sampleProfData]).1

/-- C2 counterexample: in the document backend neither insert succeeds —
`insert_professor` calls the broken `_next_id`, which raises TypeError
(`db.transaction()` yields a non-callable `Transaction`) — so the two
same-cpf inserts return no ids, raise no uniqueness error, and store
nothing: there is no "one success and one ConflictError" in the document
backend. -/
theorem C2_document_insert_crashes :
    FS.insert_professor sampleProfData 0 FS.initState = .error .typeError ∧
    (fsRun FS.initState 0 [.insertP sampleProfData, .insertP sampleProfData]).2
      = [] ∧
    c2fsState.professores = [] :=
  ⟨rfl, rfl, rfl⟩

/-- C2 (amended): in the relational backend, inserting a record and then a
second one with the same cpf yields exactly one success and one
`IntegrityError: UNIQUE constraint failed` (the spec's `ConflictError`),
leaving the first record in place; in the document backend `insertRecord`
never succeeds at all — every call raises TypeError inside `_next_id`
(`db.transaction()` returns a non-callable `Transaction` object), so
neither insert succeeds and nothing is stored. -/
theorem C2_cpf_uniqueness (d1 d2 : Dict) (t1 t2 : Nat) (s : SQ.St)
    (hw1 : SQ.wfInsertData d1) (hw2 : SQ.wfInsertData d2)
    (hsame : pyGet d2 "cpf" = pyGet d1 "cpf")
    (hfresh : ∀ p ∈ s.professores, p.cpf ≠ pyGet d1 "cpf") :
    (∃ s1, SQ.insert_professor d1 t1 s = .ok (s.seq_professores + 1, s1) ∧
      SQ.insert_professor d2 t2 s1 = .error .integrityUnique) ∧
    (∀ (data : Dict) (now : Nat) (f : FS.St),
      FS.insert_professor data now f = .error .typeError) := by
  constructor
  · obtain ⟨ch, qm, ad, h1⟩ := SQ.insert_professor_fresh hw1 hfresh
    refine ⟨_, h1, ?_⟩
    apply SQ.insert_professor_conflict hw2
    refine ⟨SQ.profFromData (s.seq_professores + 1) d1 ch qm ad t1, ?_, ?_⟩
    · simp
    · rw [hsame]; rfl
  · intro data now f
    rfl

/-- C2 witness: the amended statement instantiated with the sample
registration on the freshly initialized stores. -/
theorem C2_cpf_uniqueness_witness :
    (∃ s1, SQ.insert_professor sampleProfData 0 SQ.initState = .ok (1, s1) ∧
      SQ.insert_professor sampleProfData 1 s1 = .error .integrityUnique) ∧
    (∀ (data : Dict) (now : Nat) (f : FS.St),
      FS.insert_professor data now f = .error .typeError) :=
  C2_cpf_uniqueness sampleProfData sampleProfData 0 1 SQ.initState
    ⟨rfl, rfl, rfl, rfl⟩ ⟨rfl, rfl, rfl, rfl⟩ rfl (by simp [SQ.initState])

theorem SQ.insertRascFresh_spec {dados : Dict} {agora : Nat} {s : SQ.St}
    (hwf : SQ.wfRascData dados) :
    SQ.insertRascFresh dados agora s = .ok (s.seq_rascunhos + 1,
      { s with
          rascunhos := s.rascunhos ++
            [{ id := s.seq_rascunhos + 1,
               nome_referencia := pyGetD dados "nome" (.str ""),
               cpf := pyGetD dados "cpf" (.str ""), dados_json := dados,
               criado_em := agora, atualizado_em := agora }],
          seq_rascunhos := s.seq_rascunhos + 1 }) := by
  obtain ⟨h1, h2⟩ := hwf
  unfold SQ.insertRascFresh
  simp [h1, h2]

theorem SQ.save_rascunho_absent {dados : Dict} {i agora : Nat} {s : SQ.St}
    (habs : ∀ r ∈ s.rascunhos, r.id ≠ i) :
    SQ.save_rascunho dados (some i) agora s =
      SQ.insertRascFresh dados agora s := by
  have hc : (s.rascunhos.any fun r => r.id == i) = false := by
    rw [← Bool.not_eq_true, List.any_eq_true]
    rintro ⟨r, hr, he⟩
    exact habs r hr (beq_iff_eq.mp he)
  simp [SQ.save_rascunho, hc]

theorem FS.mem_collSet_self (docs : List FS.FDoc) (k : String) (d : Dict) :
    (⟨k, d⟩ : FS.FDoc) ∈ FS.collSet docs k d := by
  unfold FS.collSet
  split
  · rename_i hany
    obtain ⟨x, hx, he⟩ := List.any_eq_true.mp hany
    refine List.mem_map.mpr ⟨x, hx, ?_⟩
    simp [he]
  · exact List.mem_append_right _ (List.mem_singleton_self _)

theorem FS.mem_collSet_elim {docs : List FS.FDoc} {k : String} {d : Dict}
    {y : FS.FDoc} (hy : y ∈ FS.collSet docs k d) :
    y = ⟨k, d⟩ ∨ y ∈ docs := by
  unfold FS.collSet at hy
  split at hy
  · obtain ⟨x, hx, he⟩ := List.mem_map.mp hy
    by_cases hk : (x.key == k) = true
    · rw [hk] at he
      simp at he
      exact Or.inl he.symm
    · rw [Bool.not_eq_true] at hk
      rw [hk] at he
      simp at he
      exact Or.inr (he ▸ hx)
  · rcases List.mem_append.mp hy with h | h
    · exact Or.inr h
    · exact Or.inl (by simpa using h)

theorem FS.findByField_collSet {docs : List FS.FDoc} {k : String} {P : Dict}
    {v : JVal} (habs : FS.findByField docs "id" v = none)
    (hP : dictGet P "id" = some v) :
    FS.findByField (FS.collSet docs k P) "id" v = some ⟨k, P⟩ := by
  have hnone : ∀ x ∈ docs, ¬ (dictGet x.data "id" == some v) = true := by
    intro x hx
    have := List.find?_eq_none.mp habs x
      (((List.perm_insertionSort FS.keyLe docs).mem_iff).mpr hx)
    exact this
  unfold FS.findByField
  apply find?_of_mem_unique
  · exact ((List.perm_insertionSort FS.keyLe _).mem_iff).mpr
      (FS.mem_collSet_self docs k P)
  · simp [hP]
  · intro y hy hpy
    have hy' : y ∈ FS.collSet docs k P :=
      ((List.perm_insertionSort FS.keyLe _).mem_iff).mp hy
    rcases FS.mem_collSet_elim hy' with h | h
    · exact h
    · exact absurd hpy (hnone y h)

theorem FS.save_rascunho_create {dados : Dict} {i agora : Nat} {f : FS.St}
    (hfabs : FS.findByField f.rascunhos "id" (.num i) = none) :
    FS.save_rascunho dados (some i) agora f = .ok (i,
      { f with
          rascunhos := FS.collSet f.rascunhos (toString i)
            (dictSet (dictSet (dictSet dados "id" (.num i)) "criado_em"
              (.num agora)) "atualizado_em" (.num agora)) }) := by
  simp [FS.save_rascunho, hfabs]

/-- C1 counterexample: on the empty (freshly initialized) SQLite store,
`save_rascunho(payload, rascunho_id=5)` with no draft at id 5 does not
create a draft at id 5 — it falls through to the INSERT arm, creates the
draft at the next AUTOINCREMENT id 1, and returns 1, not 5. -/
theorem C1_sqlite_ignores_requested_id :
    SQ.save_rascunho [("nome", .str "Ana")] (some 5) 0 SQ.initState =
      .ok (1, ⟨[], [⟨1, .str "Ana", .str "", [("nome", .str "Ana")], 0, 0⟩],
        0, 1⟩) ∧
    SQ.carregar_rascunho 5
      ((SQ.save_rascunho [("nome", .str "Ana")] (some 5) 0
        SQ.initState).toOption.getD (0, SQ.initState) |>.2) = none :=
  ⟨rfl, by decide⟩

/-- C1 (amended): when no draft has id `i`, `save_rascunho(payload, id=i)`
is a re-entrant create at id `i` only in the document backend (the draft is
created with field `id = i`, both timestamps set, and `i` is returned); in
the relational backend, the call falls through to the plain INSERT — the
draft is created at the next AUTOINCREMENT id (`seq_rascunhos + 1`), that
id is returned, and no draft with id `i` is created unless `i` happens to
be exactly that next id. -/
theorem C1_saveDraft_reentrant_create (dados : Dict) (i agora : Nat)
    (s : SQ.St) (f : FS.St)
    (hwf : SQ.wfRascData dados)
    (habs : ∀ r ∈ s.rascunhos, r.id ≠ i)
    (hinv : ∀ r ∈ s.rascunhos, r.id ≤ s.seq_rascunhos)
    (hfabs : FS.findByField f.rascunhos "id" (.num i) = none) :
    (∃ s', SQ.save_rascunho dados (some i) agora s =
        .ok (s.seq_rascunhos + 1, s') ∧
      SQ.carregar_rascunho (s.seq_rascunhos + 1) s' =
        some ⟨s.seq_rascunhos + 1, dados, agora, agora⟩ ∧
      (i ≠ s.seq_rascunhos + 1 → SQ.carregar_rascunho i s' = none)) ∧
    (∃ f', FS.save_rascunho dados (some i) agora f = .ok (i, f') ∧
      ∃ d, FS.carregar_rascunho i f' = some d ∧
        dictGet d "id" = some (.num i) ∧
        dictGet d "criado_em" = some (.num agora) ∧
        dictGet d "atualizado_em" = some (.num agora)) := by
  constructor
  · rw [SQ.save_rascunho_absent habs, SQ.insertRascFresh_spec hwf]
    refine ⟨_, rfl, ?_, ?_⟩
    · unfold SQ.carregar_rascunho
      rw [List.find?_append]
      have h1 : s.rascunhos.find? (fun r => r.id == s.seq_rascunhos + 1)
          = none :=
        List.find?_eq_none.mpr (fun r hr => by
          have := hinv r hr; simp; omega)
      rw [h1]
      simp [List.find?]
    · intro hne
      unfold SQ.carregar_rascunho
      have h2 : (s.rascunhos ++
          [(⟨s.seq_rascunhos + 1, pyGetD dados "nome" (.str ""),
            pyGetD dados "cpf" (.str ""), dados, agora, agora⟩ : SQ.Rasc)]).find?
          (fun r => r.id == i) = none := by
        rw [List.find?_eq_none]
        intro r hr
        rcases List.mem_append.mp hr with h | h
        · simp
          exact habs r h
        · simp at h
          subst h
          simp
          omega
      rw [h2]
      rfl
  · rw [FS.save_rascunho_create hfabs]
    refine ⟨_, rfl, ?_⟩
    have hP : dictGet (dictSet (dictSet (dictSet dados "id" (.num i))
        "criado_em" (.num agora)) "atualizado_em" (.num agora)) "id"
        = some (.num i) := by
      rw [dictGet_dictSet_ne _ _ (by decide),
          dictGet_dictSet_ne _ _ (by decide), dictGet_dictSet_self]
    refine ⟨_, ?_, hP, ?_, ?_⟩
    · unfold FS.carregar_rascunho
      rw [FS.findByField_collSet hfabs hP]
      rfl
    · rw [dictGet_dictSet_ne _ _ (by decide), dictGet_dictSet_self]
    · rw [dictGet_dictSet_self]

/-- C1 witness: the amended statement instantiated at the empty stores with
requested id 5 (the SQLite store creates and returns id `0 + 1 = 1`). -/
theorem C1_saveDraft_reentrant_create_witness :
    (∃ s', SQ.save_rascunho [("nome", .str "Ana")] (some 5) 0 SQ.initState =
        .ok (1, s') ∧
      SQ.carregar_rascunho 1 s' =
        some ⟨1, [("nome", .str "Ana")], 0, 0⟩ ∧
      (5 ≠ 1 → SQ.carregar_rascunho 5 s' = none)) ∧
    (∃ f', FS.save_rascunho [("nome", .str "Ana")] (some 5) 0 FS.initState =
        .ok (5, f') ∧
      ∃ d, FS.carregar_rascunho 5 f' = some d ∧
        dictGet d "id" = some (.num 5) ∧
        dictGet d "criado_em" = some (.num 0) ∧
        dictGet d "atualizado_em" = some (.num 0)) :=
  C1_saveDraft_reentrant_create [("nome", .str "Ana")] 5 0 SQ.initState
    FS.initState ⟨rfl, rfl⟩ (by simp [SQ.initState]) (by simp [SQ.initState])
    (by decide)

theorem SQ.fresh_roundtrip {dados : Dict} {agora : Nat} {s : SQ.St}
    (hwf : SQ.wfRascData dados)
    (hinv : ∀ r ∈ s.rascunhos, r.id ≤ s.seq_rascunhos) :
    ∃ s', SQ.insertRascFresh dados agora s = .ok (s.seq_rascunhos + 1, s') ∧
      SQ.carregar_rascunho (s.seq_rascunhos + 1) s' =
        some ⟨s.seq_rascunhos + 1, dados, agora, agora⟩ := by
  rw [SQ.insertRascFresh_spec hwf]
  refine ⟨_, rfl, ?_⟩
  unfold SQ.carregar_rascunho
  rw [List.find?_append]
  have h1 : s.rascunhos.find? (fun r => r.id == s.seq_rascunhos + 1)
      = none :=
    List.find?_eq_none.mpr (fun r hr => by
      have := hinv r hr; simp; omega)
  rw [h1]
  simp [List.find?]

/-- C6 counterexample: in the document backend `save_rascunho(P)` (no
explicit id) never produces an id at all — it calls the broken `_next_id`,
which raises TypeError because `db.transaction()` yields a non-callable
`Transaction` — so `carregar_rascunho(save_rascunho(P))` cannot complete
and no round trip happens. -/
theorem C6_document_save_crashes :
    FS.save_rascunho [("nome", .str "Ana")] none 0 FS.initState =
      .error .typeError :=
  rfl

/-- C6 (amended): in the relational backend
`carregar_rascunho(save_rascunho(P))` returns a structure whose payload
deep-equals `P` for every JSON payload (whose denormalized `nome`/`cpf`
entries are not null); in the document backend `save_rascunho(P)` with no
explicit id always raises TypeError in the counter protocol, so the round
trip never completes there. -/
theorem C6_roundtrip (P : Dict) (agora : Nat) (s : SQ.St)
    (hwf : SQ.wfRascData P)
    (hinv : ∀ r ∈ s.rascunhos, r.id ≤ s.seq_rascunhos) :
    (∃ s', SQ.save_rascunho P none agora s = .ok (s.seq_rascunhos + 1, s') ∧
      SQ.carregar_rascunho (s.seq_rascunhos + 1) s' =
        some ⟨s.seq_rascunhos + 1, P, agora, agora⟩) ∧
    (∀ (Q : Dict) (t : Nat) (f : FS.St),
      FS.save_rascunho Q none t f = .error .typeError) := by
  constructor
  · have : SQ.save_rascunho P none agora s = SQ.insertRascFresh P agora s := rfl
    rw [this]
    exact SQ.fresh_roundtrip hwf hinv
  · intro Q t f
    rfl

/-- C6 witness: the amended statement instantiated on the freshly
initialized stores with payload `{"nome": "Ana"}`. -/
theorem C6_roundtrip_witness :
    (∃ s', SQ.save_rascunho [("nome", .str "Ana")] none 0 SQ.initState =
        .ok (1, s') ∧
      SQ.carregar_rascunho 1 s' = some ⟨1, [("nome", .str "Ana")], 0, 0⟩) ∧
    (∀ (Q : Dict) (t : Nat) (f : FS.St),
      FS.save_rascunho Q none t f = .error .typeError) :=
  C6_roundtrip [("nome", .str "Ana")] 0 SQ.initState ⟨rfl, rfl⟩
    (by simp [SQ.initState])

theorem find?_map_of_pred_comm {α : Type _} (f : α → α) (p : α → Bool)
    (hp : ∀ x, p (f x) = p x) (l : List α) :
    (l.map f).find? p = (l.find? p).map f := by
  rw [List.find?_map]
  have he : (p ∘ f) = p := funext hp
  rw [he]

theorem countP_map_of_pred_comm {α : Type _} (f : α → α) (p : α → Bool)
    (hp : ∀ x, p (f x) = p x) (l : List α) :
    (l.map f).countP p = l.countP p := by
  rw [List.countP_map]
  have he : (p ∘ f) = p := funext hp
  rw [he]

/-- Firestore draft state after creating a draft at explicit id 1 from
`{"a": 1, "b": 2}` (tick 0; the explicit-id arm is the only working create
path, the no-id arm crashes in `_next_id`) and then saving `{"a": 3}` at
the same id 1 (tick 1), which hits the `document.update` merge arm. -/
def c5fsState : FS.St :=
  (fsRun FS.initState 0 [.saveR [("a", .num 1), ("b", .num 2)] (some 1),
    .saveR [("a", .num 3)] (some 1)]).1

/-- C5 counterexample: in the document backend, the second
`save_rascunho({"a": 3}, id=1)` merges into the stored document instead of
replacing it — the loaded draft still holds `"b": 2` from the first
payload, although the second payload has no key `"b"`; so the draft's
payload after the second call is not the second payload. -/
theorem C5_fs_merge_keeps_old_keys :
    FS.carregar_rascunho 1 c5fsState =
      some [("a", .num 3), ("b", .num 2), ("id", .num 1),
        ("criado_em", .num 0), ("atualizado_em", .num 1)] ∧
    dictGet ((FS.carregar_rascunho 1 c5fsState).getD []) "b" =
      some (.num 2) ∧
    dictGet [("a", .num 3)] "b" = none :=
  ⟨by decide, by decide, by decide⟩

theorem FS.save_rascunho_merge {dados2 : Dict} {i now2 : Nat} {f : FS.St}
    {d : FS.FDoc}
    (hfind : FS.findByField f.rascunhos "id" (.num i) = some d) :
    FS.save_rascunho dados2 (some i) now2 f = .ok (i,
      { f with
          rascunhos := f.rascunhos.map (fun x =>
            if x.key == d.key then
              ⟨x.key, dictMerge x.data (dictSet dados2 "atualizado_em"
                (.num now2))⟩
            else x) }) := by
  simp [FS.save_rascunho, hfind]

/-- C5 (amended): a second `save_rascunho(payload2, id=i)` on an existing
draft returns `i` and refreshes `atualizado_em` while keeping `criado_em`,
and leaves the same draft population (no second draft appears) in both
backends; but the stored payload differs per backend: the relational
backend replaces the payload with exactly `payload2`, while the document
backend merges `payload2` into the stored document, so keys from earlier
payloads that `payload2` lacks survive. -/
theorem C5_saveDraft_second_save (dados2 : Dict) (i now2 : Nat)
    (s : SQ.St) (r : SQ.Rasc) (f : FS.St) (d : FS.FDoc)
    (hwf : SQ.wfRascData dados2)
    (hfind : s.rascunhos.find? (fun x => x.id == i) = some r)
    (hcount : s.rascunhos.countP (fun x => x.id == i) = 1)
    (hffind : FS.findByField f.rascunhos "id" (.num i) = some d)
    (hkeys : (f.rascunhos.map FS.FDoc.key).Nodup) :
    (∃ s', SQ.save_rascunho dados2 (some i) now2 s = .ok (i, s') ∧
      SQ.carregar_rascunho i s' = some ⟨i, dados2, r.criado_em, now2⟩ ∧
      s'.rascunhos.countP (fun x => x.id == i) = 1) ∧
    (∃ f', FS.save_rascunho dados2 (some i) now2 f = .ok (i, f') ∧
      f'.rascunhos.find? (fun x => x.key == d.key) =
        some ⟨d.key, dictMerge d.data (dictSet dados2 "atualizado_em"
          (.num now2))⟩ ∧
      f'.rascunhos.map FS.FDoc.key = f.rascunhos.map FS.FDoc.key) := by
  constructor
  · have hrid : (r.id == i) = true :=
      List.find?_some (p := fun x : SQ.Rasc => x.id == i) hfind
    have hany : s.rascunhos.any (fun x => x.id == i) = true :=
      List.any_eq_true.mpr ⟨r, List.mem_of_find?_eq_some hfind, hrid⟩
    obtain ⟨h1, h2⟩ := hwf
    have hsave : SQ.save_rascunho dados2 (some i) now2 s = .ok (i,
        ⟨s.professores, s.rascunhos.map (fun x =>
          if x.id == i then
            ⟨x.id, pyGetD dados2 "nome" (.str ""),
             pyGetD dados2 "cpf" (.str ""), dados2, x.criado_em, now2⟩
          else x), s.seq_professores, s.seq_rascunhos⟩) := by
      simp only [SQ.save_rascunho, hany, h1, h2]
      rfl
    refine ⟨_, hsave, ?_, ?_⟩
    · unfold SQ.carregar_rascunho
      rw [find?_map_of_pred_comm _ _ (fun x => by
        by_cases h : (x.id == i) = true <;> simp [h]), hfind]
      have hri : r.id = i := beq_iff_eq.mp hrid
      simp [hrid, hri]
    · rw [countP_map_of_pred_comm _ _ (fun x => by
        by_cases h : (x.id == i) = true <;> simp [h]), hcount]
  · have hd : d ∈ f.rascunhos :=
      ((List.perm_insertionSort FS.keyLe _).mem_iff).mp
        (List.mem_of_find?_eq_some hffind)
    refine ⟨_, FS.save_rascunho_merge hffind, ?_, ?_⟩
    · rw [find?_map_of_pred_comm _ _ (fun x => by
        by_cases h : (x.key == d.key) = true <;> simp [h])]
      have hfd : f.rascunhos.find? (fun x => x.key == d.key) = some d := by
        apply find?_of_mem_unique _ hd (by simp)
        intro y hy hpy
        exact List.inj_on_of_nodup_map hkeys hy hd (beq_iff_eq.mp hpy)
      rw [hfd]
      simp
    · have : ∀ x : FS.FDoc, ((fun x : FS.FDoc =>
          if x.key == d.key then
            (⟨x.key, dictMerge x.data (dictSet dados2 "atualizado_em"
              (.num now2))⟩ : FS.FDoc)
          else x) x).key = x.key := fun x => by
        by_cases h : (x.key == d.key) = true <;> simp [h]
      simp only [List.map_map]
      exact List.map_congr_left (fun x _ => this x)

/-- SQLite state holding the single draft saved from `{"nome": "Ana"}`. -/
def sqDraftState1 : SQ.St :=
  (sqRun SQ.initState 0 [.saveR [("nome", .str "Ana")] none]).1

/-- Firestore state holding the single draft created at explicit id 1 from
`{"nome": "Ana"}` (via the working explicit-id save arm). -/
def fsDraftState1 : FS.St :=
  (fsRun FS.initState 0 [.saveR [("nome", .str "Ana")] (some 1)]).1

/-- C5 witness: the amended statement instantiated on the one-draft stores
with the second payload `{"nome": "Bia"}` at time 5. -/
theorem C5_saveDraft_second_save_witness :
    (∃ s', SQ.save_rascunho [("nome", .str "Bia")] (some 1) 5 sqDraftState1 =
        .ok (1, s') ∧
      SQ.carregar_rascunho 1 s' = some ⟨1, [("nome", .str "Bia")], 0, 5⟩ ∧
      s'.rascunhos.countP (fun x => x.id == 1) = 1) ∧
    (∃ f', FS.save_rascunho [("nome", .str "Bia")] (some 1) 5 fsDraftState1 =
        .ok (1, f') ∧
      f'.rascunhos.find? (fun x => x.key == "1") =
        some ⟨"1", dictMerge [("nome", .str "Ana"), ("id", .num 1),
          ("criado_em", .num 0), ("atualizado_em", .num 0)]
          (dictSet [("nome", .str "Bia")] "atualizado_em" (.num 5))⟩ ∧
      f'.rascunhos.map FS.FDoc.key = fsDraftState1.rascunhos.map
        FS.FDoc.key) :=
  C5_saveDraft_second_save [("nome", .str "Bia")] 1 5 sqDraftState1
    ⟨1, .str "Ana", .str "", [("nome", .str "Ana")], 0, 0⟩ fsDraftState1
    ⟨"1", [("nome", .str "Ana"), ("id", .num 1), ("criado_em", .num 0),
      ("atualizado_em", .num 0)]⟩
    ⟨rfl, rfl⟩ (by decide) (by decide) (by decide) (by decide)

/-- C10 counterexample: on the reachable one-record store, an update whose
fields mapping omits keys (here: all of them) does not set the missing
columns to null — every column is declared NOT NULL, so sqlite rejects the
UPDATE with an IntegrityError and the record row is left unchanged. -/
theorem C10_absent_keys_cause_integrity_error :
    SQ.update_professor 1 [] sqState1 = .error .integrityNotNull ∧
    (sqStep sqState1 (.updateP 1 []) 5).1 = sqState1 :=
  ⟨rfl, rfl⟩

/-- C10 (amended): `update_professor` builds a whole-row overwrite of all
twenty updatable columns from `data.get(c)` (absent keys bind NULL). When
any of the twenty bound values is NULL the statement violates the schema's
NOT NULL constraints and fails with an IntegrityError, leaving the row
unchanged; when all twenty are non-null (and the new cpf collides with no
other row) the matched record has all twenty columns replaced by exactly
the bound values, while `id` and `criado_em` are never modified. -/
theorem C10_update_full_overwrite (pid : Nat) (data : Dict) (s : SQ.St)
    (p : SQ.Prof)
    (hfind : s.professores.find? (fun x => x.id == pid) = some p) :
    ((SQ.updateVals data).any (· == JVal.null) = true →
      SQ.update_professor pid data s = .error .integrityNotNull) ∧
    ((SQ.updateVals data).any (· == JVal.null) = false →
      s.professores.any (fun x => x.id != pid && x.cpf == pyGet data "cpf")
        = false →
      ∃ s', SQ.update_professor pid data s = .ok s' ∧
        s'.professores.find? (fun x => x.id == pid) =
          some (SQ.applyUpdate data p) ∧
        (SQ.applyUpdate data p).id = p.id ∧
        (SQ.applyUpdate data p).criado_em = p.criado_em ∧
        (SQ.applyUpdate data p).nome = pyGet data "nome" ∧
        (SQ.applyUpdate data p).cpf = pyGet data "cpf" ∧
        (SQ.applyUpdate data p).rg = pyGet data "rg" ∧
        (SQ.applyUpdate data p).matricula = pyGet data "matricula" ∧
        (SQ.applyUpdate data p).escola = pyGet data "escola" ∧
        (SQ.applyUpdate data p).cargo = pyGet data "cargo" ∧
        (SQ.applyUpdate data p).situacao_servidor =
          pyGet data "situacao_servidor" ∧
        (SQ.applyUpdate data p).data_admissao = pyGet data "data_admissao" ∧
        (SQ.applyUpdate data p).telefone = pyGet data "telefone" ∧
        (SQ.applyUpdate data p).email = pyGet data "email" ∧
        (SQ.applyUpdate data p).endereco = pyGet data "endereco" ∧
        (SQ.applyUpdate data p).banco = pyGet data "banco" ∧
        (SQ.applyUpdate data p).agencia = pyGet data "agencia" ∧
        (SQ.applyUpdate data p).conta = pyGet data "conta" ∧
        (SQ.applyUpdate data p).tipo_conta = pyGet data "tipo_conta" ∧
        (SQ.applyUpdate data p).data_inicio_fundef =
          pyGet data "data_inicio_fundef" ∧
        (SQ.applyUpdate data p).data_fim_fundef =
          pyGet data "data_fim_fundef" ∧
        (SQ.applyUpdate data p).carga_horaria = pyGet data "carga_horaria" ∧
        (SQ.applyUpdate data p).quantidade_meses_trabalhados =
          pyGet data "quantidade_meses_trabalhados" ∧
        (SQ.applyUpdate data p).aceitou_declaracao =
          pyGet data "aceitou_declaracao") := by
  have hpid : (p.id == pid) = true :=
    List.find?_some (p := fun x : SQ.Prof => x.id == pid) hfind
  have hany : s.professores.any (fun x => x.id == pid) = true :=
    List.any_eq_true.mpr ⟨p, List.mem_of_find?_eq_some hfind, hpid⟩
  constructor
  · intro hnull
    simp [SQ.update_professor, hany, hnull]
  · intro hnn hun
    have hupd : SQ.update_professor pid data s = .ok
        ⟨s.professores.map (fun x =>
          if x.id == pid then SQ.applyUpdate data x else x),
         s.rascunhos, s.seq_professores, s.seq_rascunhos⟩ := by
      simp only [SQ.update_professor, hany, hnn, hun]
      rfl
    refine ⟨_, hupd, ?_, rfl, rfl, rfl, rfl, rfl, rfl, rfl, rfl, rfl, rfl,
      rfl, rfl, rfl, rfl, rfl, rfl, rfl, rfl, rfl, rfl, rfl, rfl⟩
    rw [find?_map_of_pred_comm _ _ (fun x => by
      by_cases h : (x.id == pid) = true <;> simp [h, SQ.applyUpdate]), hfind]
    have hpe : p.id = pid := beq_iff_eq.mp hpid
    simp [hpe]

/-- C10 witness: on the one-record store, the all-keys-present update
replaces the record's twenty columns (keeping id and criado_em), while the
empty-fields update is rejected by the NOT NULL constraints. -/
theorem C10_update_full_overwrite_witness :
    ((SQ.updateVals []).any (· == JVal.null) = true →
      SQ.update_professor 1 [] sqState1 = .error .integrityNotNull) ∧
    (∃ s', SQ.update_professor 1 sampleProfData2 sqState1 = .ok s' ∧
      s'.professores.find? (fun x => x.id == 1) =
        some (SQ.applyUpdate sampleProfData2
          (SQ.profFromData 1 sampleProfData 40 100 1 0))) := by
  constructor
  · exact (C10_update_full_overwrite 1 [] sqState1
      (SQ.profFromData 1 sampleProfData 40 100 1 0) (by decide)).1
  · obtain ⟨s', h1, h2, _⟩ := (C10_update_full_overwrite 1 sampleProfData2
      sqState1 (SQ.profFromData 1 sampleProfData 40 100 1 0) (by decide)).2
      (by decide) (by decide)
    exact ⟨s', h1, h2⟩

end DbLayer
